import Mathlib

/-!
Shallow embedding of the SeaBIOS low-level ATA driver (src/ata.c) and proofs
about it.  Machine integers are modelled as Nat with explicit truncation
(`% 256`, `% 2 ^ 32`, ...) at the points where the C code narrows a value.
Port I/O is modelled by oracles (functions giving the value of each status
poll) and by event counters recording how many bytes were read from or
written to the data port.
-/

namespace SeaBiosAta

/-! Register bit and constant definitions (atabits.h / ata.c). -/

def ATA_CB_STAT_BSY : Nat := 0x80

def ATA_CB_STAT_RDY : Nat := 0x40

def ATA_CB_STAT_DF : Nat := 0x20

def ATA_CB_STAT_DRQ : Nat := 0x08

def ATA_CB_STAT_ERR : Nat := 0x01

def ATA_CB_DH_LBA : Nat := 0x40

def ATA_MODE_PIO16 : Nat := 0x00

def ATA_MODE_PIO32 : Nat := 0x01

def ATA_TYPE_NONE : Nat := 0x00

def ATA_TYPE_ATA : Nat := 0x01

def ATA_TYPE_ATAPI : Nat := 0x02

def ATA_DEVICE_NONE : Nat := 0x00

def ATA_DEVICE_HD : Nat := 0xff

def ATA_DEVICE_CDROM : Nat := 0x05

def ATA_TRANSLATION_NONE : Nat := 0

def ATA_TRANSLATION_LBA : Nat := 1

def ATA_TRANSLATION_LARGE : Nat := 2

def ATA_TRANSLATION_RECHS : Nat := 3

def ATA_CMD_WRITE_SECTORS : Nat := 0x30

def ATA_CMD_PACKET : Nat := 0xa0

def IDE_SECTOR_SIZE : Nat := 512

def CDROM_SECTOR_SIZE : Nat := 2048

/-! ### Command assembly (send_cmd_disk, ata.c lines 353-380) -/

/-- Register image written by send_cmd to the command block; mirrors
struct ata_pio_command.  Every field is a u8 value. -/
structure ata_pio_command where
  feature : Nat
  sector_count : Nat
  lba_low : Nat
  lba_mid : Nat
  lba_high : Nat
  device : Nat
  command : Nat
  sector_count2 : Nat
  lba_low2 : Nat
  lba_mid2 : Nat
  lba_high2 : Nat
deriving Repr, DecidableEq

/-- The 48-bit addressing condition of send_cmd_disk:
op-count at least 256 sectors, or lba + count reaching 2 ^ 28. -/
def lba48_needed (lba count : Nat) : Bool :=
  decide (256 ≤ count) || decide (2 ^ 28 ≤ lba + count)

/-- Shallow embedding of send_cmd_disk (ata.c lines 353-380): assembles the
register image from the operation descriptor.  In the extended branch the
code additionally masks lba to its low 24 bits before filling the standard
registers; each u8 store truncates with % 256. -/
def send_cmd_disk (lba count command : Nat) : ata_pio_command :=
  if lba48_needed lba count then
    { feature := 0
      sector_count := count % 256
      lba_low := lba % 0x1000000 % 256
      lba_mid := lba % 0x1000000 / 256 % 256
      lba_high := lba % 0x1000000 / 65536 % 256
      device := (lba % 0x1000000 / 0x1000000 % 16) ||| ATA_CB_DH_LBA
      command := command % 256 ||| 0x04
      sector_count2 := count / 256 % 256
      lba_low2 := lba / 0x1000000 % 256
      lba_mid2 := lba / 0x100000000 % 256
      lba_high2 := lba / 0x10000000000 % 256 }
  else
    { feature := 0
      sector_count := count % 256
      lba_low := lba % 256
      lba_mid := lba / 256 % 256
      lba_high := lba / 65536 % 256
      device := (lba / 0x1000000 % 16) ||| ATA_CB_DH_LBA
      command := command % 256
      sector_count2 := 0
      lba_low2 := 0
      lba_mid2 := 0
      lba_high2 := 0 }

/-! ### Disk operation descriptor and the 512-byte cdrom emulation window
(cdrom_read_512, ata.c lines 470-492) -/

/-- Caller supplied operation descriptor (struct disk_op_s); lba is a u64,
count a u16, command and driveid u8, buf_fl an opaque pointer value. -/
structure disk_op where
  driveid : Nat
  command : Nat
  lba : Nat
  count : Nat
  buf_fl : Nat
deriving Repr, DecidableEq

/-- Result of the front half of cdrom_read_512: the revised (physical)
descriptor plus the numbers of 512-byte pieces trimmed before and after. -/
structure cdemu_plan where
  op : disk_op
  before : Nat
  after : Nat
deriving Repr, DecidableEq

/-- Shallow embedding of the descriptor rewriting done by cdrom_read_512
(ata.c lines 473-480).  vlba and vcount are u32 locals (vlba truncates the
u64 lba); velba is computed with u32 wraparound semantics; the revised count
is stored into the u16 count field. -/
def cdrom_read_512_plan (o : disk_op) : cdemu_plan :=
  let vlba := o.lba % 2 ^ 32
  let vcount := o.count % 2 ^ 32
  let lba := vlba / 4
  let velba := (vlba + vcount + (2 ^ 32 - 1)) % 2 ^ 32
  let elba := velba / 4
  { op := { o with lba := lba, count := (elba - lba + 1) % 2 ^ 16 }
    before := vlba % 4
    after := 3 - velba % 4 }

/-! ### Geometry translation (get_translation / setup_translation,
ata.c lines 511-607) -/

/-- Heuristic translation choice used when no platform hint applies
(get_translation, ata.c lines 523-532, the COREBOOT branch). -/
def get_translation_heuristic (cylinders heads spt : Nat) : Nat :=
  if cylinders ≤ 1024 ∧ heads ≤ 16 ∧ spt ≤ 63 then ATA_TRANSLATION_NONE
  else if cylinders * heads ≤ 131072 then ATA_TRANSLATION_LARGE
  else ATA_TRANSLATION_LBA

/-- The large-disk bit-shift loop of setup_translation (ata.c lines 589-596):
halve cylinders and double heads while cylinders exceed 1024, breaking as
soon as heads pass 127. -/
def large_shift (cylinders heads : Nat) : Nat × Nat :=
  if 1024 < cylinders then
    let c := cylinders / 2
    let h := heads * 2
    if 127 < h then (c, h) else large_shift c h
  else (cylinders, heads)
termination_by cylinders
decreasing_by simp_wf; omega

/-- Head-count selection of the LBA-assist branch (ata.c lines 563-573),
written exactly as the cascading reassignments of the source. -/
def lba_heads (hr : Nat) : Nat :=
  if 128 < hr then 255
  else if 64 < hr then 128
  else if 32 < hr then 64
  else if 16 < hr then 32
  else 16

/-- Logical geometry produced by the ATA_TRANSLATION_LBA case of
setup_translation (ata.c lines 554-575), before the final 1024-cylinder
clip.  Result is (cylinders, heads, spt).  The u32 cast of sectors is the
identity below the special-case guard, so it is omitted. -/
def lba_lchs (sectors : Nat) : Nat × Nat × Nat :=
  if 63 * 255 * 1024 < sectors then (1024, 255, 63)
  else
    let sect := sectors / 63
    let heads := lba_heads (sect / 1024)
    (sect / heads, heads, 63)

/-- Logical geometry computed by the switch of setup_translation plus the
final clip to 1024 cylinders (ata.c lines 550-601).  The RECHS case applies
its 15-head rescale and then falls through to the large bit-shift; a
translation tag outside the four cases leaves the physical geometry
untouched, like the C switch. -/
def setup_translation_lchs (translation cylinders heads spt sectors : Nat) :
    Nat × Nat × Nat :=
  let chs :=
    if translation = ATA_TRANSLATION_NONE then (cylinders, heads, spt)
    else if translation = ATA_TRANSLATION_LBA then lba_lchs sectors
    else if translation = ATA_TRANSLATION_RECHS then
      let c2 := if heads = 16 then (min cylinders 61439) * 16 / 15 else cylinders
      let h2 := if heads = 16 then 15 else heads
      let s := large_shift c2 h2
      (s.1, s.2, spt)
    else if translation = ATA_TRANSLATION_LARGE then
      let s := large_shift cylinders heads
      (s.1, s.2, spt)
    else (cylinders, heads, spt)
  (if 1024 < chs.1 then 1024 else chs.1, chs.2.1, chs.2.2)

/-- Full heuristic pipeline of setup_translation on COREBOOT: choose the
scheme with get_translation and compute the logical geometry. -/
def setup_translation_heuristic (cylinders heads spt sectors : Nat) :
    Nat × (Nat × Nat × Nat) :=
  let t := get_translation_heuristic cylinders heads spt
  (t, setup_translation_lchs t cylinders heads spt sectors)

/-- Head ladder as the specification words it: the smallest value of the
ladder 16, 32, 64, 128, 255 that accommodates (total-sectors/63)/1024, with
255 for anything past 128.  Stated from the spec for comparison with the
code ladder lba_heads. -/
def ladder_spec (hr : Nat) : Nat :=
  if hr ≤ 16 then 16
  else if hr ≤ 32 then 32
  else if hr ≤ 64 then 64
  else if hr ≤ 128 then 128
  else 255

/-! ### Model string extraction (extract_identify, ata.c lines 615-648) -/

/-- Character written into model[i] by the word-swizzling copy loop plus the
final null store at index maxsize-1 (ata.c lines 621-629).  Even indices get
the high byte of identify word 27+i/2, odd indices the low byte. -/
def identify_model_raw (maxsize : Nat) (buffer : Nat → Nat) (i : Nat) : Nat :=
  if i = maxsize - 1 then 0
  else if i % 2 = 0 then buffer (27 + i / 2) / 256 % 256
  else buffer (27 + i / 2) % 256

/-- Final index reached by the trailing-space trim loop of extract_identify
(ata.c lines 631-633): walk down from the start index while the index is
positive and the character is a space.  Characters strictly above the result
(up to the start index) are the ones overwritten with 0. -/
def trim_idx (raw : Nat → Nat) : Nat → Nat
  | 0 => 0
  | i + 1 => if raw (i + 1) = 0x20 then trim_idx raw i else i + 1

/-- Model string produced by extract_identify for a model field of width
maxsize: swizzled copy, null at maxsize-1, then trailing 0x20 bytes from
index maxsize-2 down to (but never including) index 0 replaced by 0. -/
def extract_model (maxsize : Nat) (buffer : Nat → Nat) : List Nat :=
  let raw := identify_model_raw maxsize buffer
  let t := trim_idx raw (maxsize - 2)
  (List.range maxsize).map fun i => if t < i ∧ i < maxsize - 1 then 0 else raw i

/-- Highest protocol version bit extraction (ata.c lines 636-641): scan bits
15 down to 1 of identify word 80, stopping at the first set bit; 0 when no
bit in that range is set. -/
def ata_version_scan (w80 : Nat) : Nat → Nat
  | 0 => 0
  | v + 1 => if w80 &&& (1 <<< (v + 1)) ≠ 0 then v + 1 else ata_version_scan w80 v

/-! ### Status polling (await_ide, ata.c lines 41-54) -/

/-- Shallow embedding of the await_ide polling loop.  status gives the value
of the k-th read of the status register, tsc the value of the k-th rdtscll,
deadline the precomputed end time.  The loop is made total with explicit
fuel; none marks fuel exhaustion (the C loop would still be polling). -/
def await_ide (mask flags : Nat) (status tsc : Nat → Nat) (deadline : Nat) :
    Nat → Nat → Option Int
  | 0, _ => none
  | fuel + 1, k =>
    if status k &&& mask = flags then some (Int.ofNat (status k))
    else if deadline ≤ tsc k then some (-1)
    else await_ide mask flags status tsc deadline fuel (k + 1)

/-! ### Device table and world state -/

/-- One entry of the global device table (struct ata_device in disk.h,
populated by ata.c).  pchs and lchs are (cylinders, heads, spt). -/
structure device_s where
  type : Nat
  device : Nat
  removable : Nat
  mode : Nat
  blksize : Nat
  version : Nat
  translation : Nat
  model : List Nat
  pchs : Nat × Nat × Nat
  lchs : Nat × Nat × Nat
  sectors : Nat
deriving Repr, DecidableEq

/-- Device table entry after memset of the ATA global (ata_init). -/
def device_zero : device_s :=
  { type := 0, device := 0, removable := 0, mode := 0, blksize := 0
    version := 0, translation := 0, model := List.replicate 41 0
    pchs := (0, 0, 0), lchs := (0, 0, 0), sectors := 0 }

/-- Mutable world visible to the driver: the global device table, the EBDA
sector_count progress counter, and event counters recording the bytes read
from the data port and discarded before the first useful payload
(disc_first), discarded after the last useful payload (disc_last), and moved
to or from the caller buffer (to_buf). -/
structure ata_state where
  devices : Nat → device_s
  sector_count : Nat
  disc_first : Nat
  disc_last : Nat
  to_buf : Nat

/-- Bytes read and thrown away by insx_discard (ata.c lines 222-235): the
loop performs bytes/4 inl or bytes/2 inw reads. -/
def insx_discard (mode bytes : Nat) : Nat :=
  if mode = ATA_MODE_PIO32 then bytes / 4 * 4 else bytes / 2 * 2

/-- Bytes moved by one insl_fl/insw_fl/outsl_fl/outsw_fl call of
ata_transfer for a partial block of bsize bytes: bsize/4 dword or bsize/2
word transfers. -/
def pio_chunk (mode bytes : Nat) : Nat :=
  if mode = ATA_MODE_PIO32 then bytes / 4 * 4 else bytes / 2 * 2

/-- One-block-per-iteration loop of ata_transfer (ata.c lines 260-317).
pstat gives the status returned by pause_await_not_bsy after block number
current (none = poll timed out, mirrored as the -1 the C code propagates).
Fuel makes the loop total; count iterations are exactly enough for a
successful transfer, so the wrapper passes fuel = count. -/
def ata_transfer_loop (mode : Nat) (iswrite : Bool)
    (count blocksize skipfirst skiplast : Nat) (pstat : Nat → Option Nat) :
    Nat → Nat → ata_state → Option (Int × ata_state)
  | 0, _, _ => none
  | fuel + 1, current, w =>
    let df := if skipfirst ≠ 0 ∧ current = 0 then insx_discard mode skipfirst else 0
    let bsize := blocksize - (if skipfirst ≠ 0 ∧ current = 0 then skipfirst else 0)
        - (if skiplast ≠ 0 ∧ current = count - 1 then skiplast else 0)
    let dl := if skiplast ≠ 0 ∧ current = count - 1 then insx_discard mode skiplast else 0
    let w1 : ata_state :=
      { w with disc_first := w.disc_first + df
               to_buf := w.to_buf + pio_chunk mode bsize
               disc_last := w.disc_last + dl }
    match pstat current with
    | none => some (-1, w1)
    | some status =>
      let w2 : ata_state := { w1 with sector_count := current + 1 }
      if current + 1 = count then
        let m := if iswrite then
            ATA_CB_STAT_BSY ||| ATA_CB_STAT_DF ||| ATA_CB_STAT_DRQ ||| ATA_CB_STAT_ERR
          else ATA_CB_STAT_BSY ||| ATA_CB_STAT_DRQ ||| ATA_CB_STAT_ERR
        if status &&& m ≠ 0 then some (-7, w2) else some (0, w2)
      else
        if status &&& (ATA_CB_STAT_BSY ||| ATA_CB_STAT_DRQ ||| ATA_CB_STAT_ERR)
            = ATA_CB_STAT_DRQ then
          ata_transfer_loop mode iswrite count blocksize skipfirst skiplast pstat
            fuel (current + 1) w2
        else some (-6, w2)

/-- ata_transfer (ata.c lines 242-318): reset the EBDA sector_count, read the
transfer mode of the drive from the device table, and run the block loop. -/
def ata_transfer_m (driveid : Nat) (iswrite : Bool)
    (count blocksize skipfirst skiplast : Nat) (pstat : Nat → Option Nat)
    (w : ata_state) : Option (Int × ata_state) :=
  ata_transfer_loop (w.devices driveid).mode iswrite count blocksize skipfirst
    skiplast pstat count 0 { w with sector_count := 0 }

/-! ### Command dispatch result model (send_cmd, ata.c lines 159-214) -/

/-- Outcomes of the status polls a single command issue performs.  sel_await
is the not-busy wait before device selection, devchange says whether the
drive-head register changed its device bit (forcing a second wait,
devchange_await), cmd_await is the post-command ndelay wait, pkt_await the
wait after the 12-byte packet write of send_atapi_cmd, and pstat the
per-block waits of ata_transfer.  none always means the poll timed out. -/
structure io_oracle where
  sel_await : Option Nat
  devchange : Bool
  devchange_await : Option Nat
  cmd_await : Option Nat
  pkt_await : Option Nat
  pstat : Nat → Option Nat

/-- Result code of send_cmd (ata.c lines 159-214).  The register image cmd is
written to I/O ports and does not influence the returned code; state is not
touched. -/
def send_cmd_m (_cmd : ata_pio_command) (o : io_oracle) : Int :=
  match o.sel_await with
  | none => -1
  | some _ =>
    let tail : Int :=
      match o.cmd_await with
      | none => -1
      | some st =>
        if st &&& ATA_CB_STAT_ERR ≠ 0 then -4
        else if st &&& ATA_CB_STAT_DRQ = 0 then -5
        else 0
    if o.devchange then
      match o.devchange_await with
      | none => -1
      | some _ => tail
    else tail

/-- Result code of send_atapi_cmd (ata.c lines 398-436): a PACKET command
whose lba_mid/lba_high carry the requested byte count, then the packet write
followed by one more status check. -/
def send_atapi_cmd_m (blocksize : Nat) (o : io_oracle) : Int :=
  let cmd : ata_pio_command :=
    { feature := 0, sector_count := 0, lba_low := 0
      lba_mid := blocksize % 256, lba_high := blocksize / 256 % 256
      device := 0, command := ATA_CMD_PACKET
      sector_count2 := 0, lba_low2 := 0, lba_mid2 := 0, lba_high2 := 0 }
  let ret := send_cmd_m cmd o
  if ret ≠ 0 then ret
  else
    match o.pkt_await with
    | none => -1
    | some st =>
      if st &&& ATA_CB_STAT_ERR ≠ 0 then -2
      else if st &&& ATA_CB_STAT_DRQ = 0 then -3
      else 0

/-! ### Composed transfer operations -/

/-- ata_cmd_data (ata.c lines 383-390): issue the disk command built by
send_cmd_disk, then run the whole-sector transfer of ata_transfer_disk. -/
def ata_cmd_data_m (op : disk_op) (o : io_oracle) (w : ata_state) :
    Option (Int × ata_state) :=
  let ret := send_cmd_m (send_cmd_disk op.lba op.count op.command) o
  if ret ≠ 0 then some (ret, w)
  else ata_transfer_m op.driveid (op.command = ATA_CMD_WRITE_SECTORS)
    op.count IDE_SECTOR_SIZE 0 0 o.pstat w

/-- cdrom_read (ata.c lines 458-466): packet read command, then a
whole-2048-byte-sector transfer. -/
def cdrom_read_m (op : disk_op) (o : io_oracle) (w : ata_state) :
    Option (Int × ata_state) :=
  let ret := send_atapi_cmd_m CDROM_SECTOR_SIZE o
  if ret ≠ 0 then some (ret, w)
  else ata_transfer_m op.driveid false op.count CDROM_SECTOR_SIZE 0 0 o.pstat w

/-- ata_transfer_cdemu (ata.c lines 334-346): run ata_transfer with the edge
trims scaled to bytes, then publish the visible (512-byte) block count in
sector_count on success, or 0 on failure. -/
def ata_transfer_cdemu (op : disk_op) (bfr aft : Nat) (pstat : Nat → Option Nat)
    (w : ata_state) : Option (Int × ata_state) :=
  let vcount := op.count * 4 - bfr - aft
  (ata_transfer_m op.driveid false op.count CDROM_SECTOR_SIZE (bfr * 512)
      (aft * 512) pstat w).map fun p =>
    if p.1 ≠ 0 then (p.1, { p.2 with sector_count := 0 })
    else (0, { p.2 with sector_count := vcount })

/-- cdrom_read_512 (ata.c lines 470-492): rewrite the descriptor in place to
physical 2048-byte sectors, issue the packet read, and run the trimmed
transfer.  The revised descriptor is part of the result because the C code
mutates the caller structure before any command is sent. -/
def cdrom_read_512_m (op : disk_op) (o : io_oracle) (w : ata_state) :
    Option (Int × disk_op × ata_state) :=
  let p := cdrom_read_512_plan op
  let ret := send_atapi_cmd_m CDROM_SECTOR_SIZE o
  if ret ≠ 0 then some (ret, p.op, w)
  else (ata_transfer_cdemu p.op p.before p.after o.pstat w).map
    fun q => (q.1, p.op, q.2)

/-- ata_cmd_packet (ata.c lines 495-504): raw packet command followed by a
single-block transfer of the requested length. -/
def ata_cmd_packet_m (driveid length : Nat) (o : io_oracle) (w : ata_state) :
    Option (Int × ata_state) :=
  let ret := send_atapi_cmd_m length o
  if ret ≠ 0 then some (ret, w)
  else ata_transfer_m driveid false 1 length 0 0 o.pstat w

/-- ata_reset (ata.c lines 89-136): pulses SRST on the control register,
polls status, retries slave selection, and for ATA devices waits for RDY.
All of that is port I/O; the device table is only read (the type field), so
the world is returned unchanged. -/
def ata_reset_m (driveid : Nat) (o : io_oracle) (w : ata_state) : ata_state :=
  let _ := (w.devices driveid).type
  let _ := o.sel_await
  w

/-! ### Identification and detection (extract_identify, init_drive_atapi,
init_drive_ata, ata_detect; ata.c lines 615-800) -/

/-- Width of the model field of struct ata_device (disk.h).  disk.h is not
part of this repository; the spec only says the string is fixed-width, so
the upstream width of 41 bytes is used.  None of the statements below
depends on the exact value beyond it being at least 2. -/
def MODEL_SIZE : Nat := 41

/-- Device table updates common to both IDENTIFY forms (extract_identify,
ata.c lines 615-648): model string, protocol version, removable flag and
PIO transfer mode. -/
def extract_identify_m (d : device_s) (buffer : Nat → Nat) : device_s :=
  { d with
    model := extract_model MODEL_SIZE buffer
    version := ata_version_scan (buffer 80) 15
    removable := if buffer 0 &&& 0x80 ≠ 0 then 1 else 0
    mode := if buffer 48 ≠ 0 then ATA_MODE_PIO32 else ATA_MODE_PIO16 }

/-- Point update of the device table. -/
def set_device (w : ata_state) (driveid : Nat) (d : device_s) : ata_state :=
  { w with devices := fun i => if i = driveid then d else w.devices i }

/-- Device table effect of a successful init_drive_atapi (ata.c lines
666-670): identify fields plus ATAPI type, packet device subtype and a
2048-byte block size.  buffer holds the 256 identify words returned by the
device. -/
def init_drive_atapi_m (driveid : Nat) (buffer : Nat → Nat) (w : ata_state) :
    ata_state :=
  let d := extract_identify_m (w.devices driveid) buffer
  set_device w driveid
    { d with
      type := ATA_TYPE_ATAPI
      device := buffer 0 / 256 &&& 0x1f
      blksize := CDROM_SECTOR_SIZE }

/-- Total sector count extraction of init_drive_ata (ata.c lines 714-718):
the 48-bit form from words 100-103 when word 83 bit 10 is set, else the
legacy 32-bit form from words 60-61. -/
def ata_sectors (buffer : Nat → Nat) : Nat :=
  if buffer 83 &&& (1 <<< 10) ≠ 0 then
    buffer 100 + buffer 101 * 2 ^ 16 + buffer 102 * 2 ^ 32 + buffer 103 * 2 ^ 48
  else buffer 60 + buffer 61 * 2 ^ 16

/-- Device table effect of a successful init_drive_ata (ata.c lines
704-722): identify fields plus ATA type, hard-disk subtype, 512-byte block
size, physical geometry from words 1/3/6, sector count, and the geometry
translation of setup_translation (modelled with the heuristic scheme
choice). -/
def init_drive_ata_m (driveid : Nat) (buffer : Nat → Nat) (w : ata_state) :
    ata_state :=
  let d := extract_identify_m (w.devices driveid) buffer
  let cyl := buffer 1
  let hd := buffer 3
  let spt := buffer 6
  let sectors := ata_sectors buffer
  let t := get_translation_heuristic cyl hd spt
  set_device w driveid
    { d with
      type := ATA_TYPE_ATA
      device := ATA_DEVICE_HD
      blksize := IDE_SECTOR_SIZE
      pchs := (cyl, hd, spt)
      sectors := sectors
      translation := t
      lchs := setup_translation_lchs t cyl hd spt sectors }

/-- Hardware answers consumed by one ata_detect scan: whether the 0x55/0xaa
register pattern written at a drive position reads back (pattern_ok),
whether the IDENTIFY_DEVICE_PACKET command succeeds (atapi_ok) and its data
(atapi_buf), whether the status register is nonzero after an ATAPI failure
(status_nonzero), whether the RDY wait succeeds (rdy_ok), and whether the
IDENTIFY_DEVICE command succeeds (ata_ok) with its data (ata_buf). -/
structure detect_oracle where
  pattern_ok : Nat → Bool
  atapi_ok : Nat → Bool
  atapi_buf : Nat → Nat → Nat
  status_nonzero : Nat → Bool
  rdy_ok : Nat → Bool
  ata_ok : Nat → Bool
  ata_buf : Nat → Nat → Nat

/-- Scan loop of ata_detect (ata.c lines 742-800), iterating over the list
of remaining driveids.  iobase1 gives the configured primary I/O base of
each channel; a zero base breaks out of the whole scan.  The returned list
records every driveid that was actually probed, i.e. reached the 0x55/0xaa
register-pattern write.  A failed pattern readback, a failed
identification, or any intermediate failure only skips the single driveid.
The drive reset between pattern check and identification touches no driver
state and is not recorded. -/
def ata_detect_loop (o : detect_oracle) (iobase1 : Nat → Nat) :
    List Nat → ata_state → List Nat → ata_state × List Nat
  | [], w, probes => (w, probes)
  | d :: rest, w, probes =>
    if iobase1 (d / 2) = 0 then (w, probes)
    else
      let probes := probes ++ [d]
      if o.pattern_ok d = false then
        ata_detect_loop o iobase1 rest w probes
      else if o.atapi_ok d then
        ata_detect_loop o iobase1 rest (init_drive_atapi_m d (o.atapi_buf d) w) probes
      else if o.status_nonzero d = false then
        ata_detect_loop o iobase1 rest w probes
      else if o.rdy_ok d = false then
        ata_detect_loop o iobase1 rest w probes
      else if o.ata_ok d then
        ata_detect_loop o iobase1 rest (init_drive_ata_m d (o.ata_buf d) w) probes
      else
        ata_detect_loop o iobase1 rest w probes

/-- State after ata_init (ata.c lines 802-856): the ATA global is memset to
zero, so every device slot is the all-zero entry (type = ATA_TYPE_NONE). -/
def ata_init_state : ata_state :=
  { devices := fun _ => device_zero, sector_count := 0
    disc_first := 0, disc_last := 0, to_buf := 0 }

/-- Full detection pass: ata_init followed by ata_detect scanning driveids
0 .. maxdev-1 in increasing order. -/
def ata_detect_m (o : detect_oracle) (iobase1 : Nat → Nat) (maxdev : Nat) :
    ata_state × List Nat :=
  ata_detect_loop o iobase1 (List.range maxdev) ata_init_state []

/-! ## Theorems -/

/-- Any value with bit 2 forced by an or has bit 2 set. -/
theorem lor_four_land_four (x : Nat) : (x ||| 4) &&& 4 = 4 := by
  apply Nat.eq_of_testBit_eq
  intro i
  rw [Nat.testBit_and, Nat.testBit_or]
  have h4 : (4 : Nat) = 2 ^ 2 := by norm_num
  rw [h4, Nat.testBit_two_pow]
  rcases eq_or_ne (2 : Nat) i with h | h
  · simp [h]
  · simp [h]

/-- C1: send_cmd_disk selects the 48-bit (extended) command form exactly
when the requested block count is at least 256 or lba + count reaches
2 ^ 28; in that case the command code has bit 0x04 set, the low 24 bits of
the LBA go in the standard registers (lba_low/lba_mid/lba_high), LBA bits
24-47 go in the extended registers (lba_low2/lba_mid2/lba_high2), and the
high byte of the block count goes in the extended sector-count register;
with count = 1 and lba = 0 the extended form is never selected. -/
theorem send_cmd_disk_lba48_correct (lba count command : Nat) :
    (lba48_needed lba count = true ↔ 256 ≤ count ∨ 2 ^ 28 ≤ lba + count)
    ∧ (lba48_needed lba count = true →
        (send_cmd_disk lba count command).command &&& 0x04 = 0x04
        ∧ (send_cmd_disk lba count command).lba_low = lba % 256
        ∧ (send_cmd_disk lba count command).lba_mid = lba / 256 % 256
        ∧ (send_cmd_disk lba count command).lba_high = lba / 65536 % 256
        ∧ (send_cmd_disk lba count command).lba_low2 = lba / 0x1000000 % 256
        ∧ (send_cmd_disk lba count command).lba_mid2 = lba / 0x100000000 % 256
        ∧ (send_cmd_disk lba count command).lba_high2 = lba / 0x10000000000 % 256
        ∧ (send_cmd_disk lba count command).sector_count2 = count / 256 % 256)
    ∧ (lba48_needed lba count = false →
        (send_cmd_disk lba count command).command = command % 256
        ∧ (send_cmd_disk lba count command).sector_count2 = 0)
    ∧ lba48_needed 0 1 = false := by
  refine ⟨?_, ?_, ?_, by decide⟩
  · simp [lba48_needed]
  · intro h
    simp only [send_cmd_disk, h, if_true]
    refine ⟨lor_four_land_four _, by omega, by omega, by omega, by trivial,
      by trivial, by trivial, by trivial⟩
  · intro h
    simp only [send_cmd_disk, h, Bool.false_eq_true, if_false]
    exact ⟨by trivial, by trivial⟩

/-- C1 witness: concrete instantiations discharging the hypotheses of
send_cmd_disk_lba48_correct. -/
theorem send_cmd_disk_lba48_correct_witness :
    ((send_cmd_disk 0x12345678 300 0x24).command &&& 0x04 = 0x04)
    ∧ (send_cmd_disk 7 1 0x24).sector_count2 = 0 :=
  ⟨((send_cmd_disk_lba48_correct 0x12345678 300 0x24).2.1 (by decide)).1,
   ((send_cmd_disk_lba48_correct 7 1 0x24).2.2.1 (by decide)).2⟩

/-! Concrete fixtures used by witnesses and counterexamples. -/

/-- World whose devices are all in 16-bit PIO mode (the all-zero table). -/
def w_pio16 : ata_state := ata_init_state

/-- World whose devices are all in 32-bit PIO mode. -/
def w_pio32 : ata_state :=
  { ata_init_state with devices := fun _ => { device_zero with mode := ATA_MODE_PIO32 } }

/-- Status oracle that always answers 0 (not busy, no DRQ, no error). -/
def pstat_zero : Nat → Option Nat := fun _ => some 0

/-- Status oracle for a clean 3-block transfer: DRQ after the first two
blocks, all-clear after the last. -/
def pstat_ok3 : Nat → Option Nat :=
  fun k => if k + 1 < 3 then some ATA_CB_STAT_DRQ else some 0

/-- Command oracle whose very first status poll times out. -/
def o_fail : io_oracle :=
  { sel_await := none, devchange := false, devchange_await := none
    cmd_await := none, pkt_await := none, pstat := fun _ => none }

/-- C2 counterexample: at vlba = 5, vcount = 10 cdrom_read_512 computes
after = 1 (the last physical sector contributes 3 logical blocks), not the
claimed after = 2, so the claimed visible count 3*4-1-2 = 9 is wrong as
well: the success path publishes 3*4-1-1 = 10. -/
theorem cdrom_read_512_after_cex :
    (cdrom_read_512_plan ⟨7, 0x28, 5, 10, 99⟩).after = 1
    ∧ decide ((cdrom_read_512_plan ⟨7, 0x28, 5, 10, 99⟩).after = 2) = false
    ∧ decide (3 * 4 - (cdrom_read_512_plan ⟨7, 0x28, 5, 10, 99⟩).before
        - (cdrom_read_512_plan ⟨7, 0x28, 5, 10, 99⟩).after = 9) = false :=
  ⟨rfl, rfl, rfl⟩

/-- C2 (amended): for vlba = 5, vcount = 10 the emulated optical read
computes physical lba = 1, elba = 3 (physical count 3), before = 1 and
after = 1, and on success the visible block count written to the shared
progress counter is 3*4-1-1 = 10; in general the published visible count
equals physicalBlocks*4 - before - after on success, and 0 on failure. -/
theorem cdrom_read_512_emulation_correct :
    (∀ d c b, cdrom_read_512_plan ⟨d, c, 5, 10, b⟩ = ⟨⟨d, c, 1, 3, b⟩, 1, 1⟩)
    ∧ (∀ op bfr aft pstat w r w2,
        ata_transfer_cdemu op bfr aft pstat w = some (r, w2) →
        (r = 0 → w2.sector_count = op.count * 4 - bfr - aft)
        ∧ (r ≠ 0 → w2.sector_count = 0)) := by
  constructor
  · intro d c b
    unfold cdrom_read_512_plan
    norm_num
  · intro op bfr aft pstat w r w2 h
    unfold ata_transfer_cdemu at h
    rcases heq : ata_transfer_m op.driveid false op.count CDROM_SECTOR_SIZE
        (bfr * 512) (aft * 512) pstat w with _ | ⟨ret, w1⟩
    · rw [heq] at h
      simp at h
    · rw [heq] at h
      simp only [Option.map_some'] at h
      split at h
      · rename_i hret
        simp only [Option.some.injEq, Prod.mk.injEq] at h
        obtain ⟨rfl, rfl⟩ := h
        exact ⟨fun h0 => absurd h0 hret, fun _ => rfl⟩
      · rename_i hret
        simp only [Option.some.injEq, Prod.mk.injEq] at h
        obtain ⟨rfl, rfl⟩ := h
        exact ⟨fun _ => rfl, fun hne => absurd rfl hne⟩

/-- C2 witness: a concrete successful 3-physical-block emulated read with
before = after = 1 publishes the visible count 10. -/
theorem cdrom_read_512_emulation_correct_witness :
    ∃ w2, ata_transfer_cdemu ⟨7, 0x28, 1, 3, 99⟩ 1 1 pstat_ok3 w_pio16 = some (0, w2)
      ∧ w2.sector_count = 10 := by
  refine ⟨_, rfl, ?_⟩
  exact (cdrom_read_512_emulation_correct.2 ⟨7, 0x28, 1, 3, 99⟩ 1 1 pstat_ok3
    w_pio16 0 _ rfl).1 rfl

/-- Evaluation of the large-disk bit-shift on the geometry 2000/16: one
halving step reaches 1000 cylinders and 32 heads. -/
theorem large_shift_2000 : large_shift 2000 16 = (1000, 32) := by
  simp [large_shift]

/-- C3: the heuristic translation choice is none when the physical geometry
fits in 1024/16/63, else large when cylinders*heads is at most 131072, else
LBA-assist; geometry (1024,16,63) stays unchanged under scheme none, and
geometry (2000,16,63) maps to scheme large with logical (1000,32,63). -/
theorem translation_heuristic_correct :
    (∀ c h s, c ≤ 1024 ∧ h ≤ 16 ∧ s ≤ 63 →
        get_translation_heuristic c h s = ATA_TRANSLATION_NONE)
    ∧ (∀ c h s, ¬(c ≤ 1024 ∧ h ≤ 16 ∧ s ≤ 63) → c * h ≤ 131072 →
        get_translation_heuristic c h s = ATA_TRANSLATION_LARGE)
    ∧ (∀ c h s, ¬(c ≤ 1024 ∧ h ≤ 16 ∧ s ≤ 63) → 131072 < c * h →
        get_translation_heuristic c h s = ATA_TRANSLATION_LBA)
    ∧ (∀ sec, setup_translation_heuristic 1024 16 63 sec
        = (ATA_TRANSLATION_NONE, (1024, 16, 63)))
    ∧ (∀ sec, setup_translation_heuristic 2000 16 63 sec
        = (ATA_TRANSLATION_LARGE, (1000, 32, 63))) := by
  refine ⟨?_, ?_, ?_, fun sec => rfl, ?_⟩
  · intro c h s hcs
    rw [get_translation_heuristic, if_pos hcs]
  · intro c h s h1 h2
    rw [get_translation_heuristic, if_neg h1, if_pos h2]
  · intro c h s h1 h2
    rw [get_translation_heuristic, if_neg h1, if_neg (by omega)]
  · intro sec
    simp [setup_translation_heuristic, get_translation_heuristic,
      setup_translation_lchs, large_shift_2000, ATA_TRANSLATION_NONE,
      ATA_TRANSLATION_LBA, ATA_TRANSLATION_LARGE, ATA_TRANSLATION_RECHS]

/-- C3 witness: concrete geometries discharging the hypotheses of
translation_heuristic_correct. -/
theorem translation_heuristic_correct_witness :
    get_translation_heuristic 1024 16 63 = ATA_TRANSLATION_NONE
    ∧ get_translation_heuristic 2000 16 63 = ATA_TRANSLATION_LARGE :=
  ⟨translation_heuristic_correct.1 1024 16 63 (by norm_num),
   translation_heuristic_correct.2.1 2000 16 63 (by norm_num) (by norm_num)⟩

/-- C4 counterexample: for total sectors 16,514,064 the special case fires
(16,514,064 > 63*255*1024 = 16,450,560), giving 255 heads, not the claimed
ladder choice of 64. -/
theorem lba_assist_16514064_cex :
    (setup_translation_lchs ATA_TRANSLATION_LBA 16383 16 63 16514064).2.1 = 255
    ∧ decide ((setup_translation_lchs ATA_TRANSLATION_LBA 16383 16 63 16514064).2.1
        = 64) = false :=
  ⟨rfl, rfl⟩

/-- The head ladder written in the code equals its specification reading:
the smallest of 16/32/64/128 at least (total/63)/1024, and 255 past 128. -/
theorem lba_heads_eq_ladder (hr : Nat) : lba_heads hr = ladder_spec hr := by
  unfold lba_heads ladder_spec
  split_ifs <;> omega

/-- Pointwise description of the LBA-assist branch before the final clip. -/
theorem lba_lchs_spec (sectors : Nat) :
    (lba_lchs sectors).2.2 = 63
    ∧ (sectors ≤ 63 * 255 * 1024 →
        (lba_lchs sectors).2.1 = ladder_spec (sectors / 63 / 1024)
        ∧ (lba_lchs sectors).1 = sectors / 63 / ladder_spec (sectors / 63 / 1024))
    ∧ (63 * 255 * 1024 < sectors → lba_lchs sectors = (1024, 255, 63)) := by
  unfold lba_lchs
  split_ifs with hs
  · exact ⟨rfl, fun h => absurd hs (by omega), fun _ => rfl⟩
  · refine ⟨rfl, fun h => ⟨?_, ?_⟩, fun h => absurd h hs⟩
    · simp [lba_heads_eq_ladder]
    · simp [lba_heads_eq_ladder]

/-- Unfolding of setup_translation_lchs on the LBA scheme: the branch result
is the lba_lchs geometry with cylinders clipped to 1024. -/
theorem setup_lba_unfold (pc ph ps sectors : Nat) :
    setup_translation_lchs ATA_TRANSLATION_LBA pc ph ps sectors
      = (if 1024 < (lba_lchs sectors).1 then 1024 else (lba_lchs sectors).1,
         (lba_lchs sectors).2.1, (lba_lchs sectors).2.2) := rfl

/-- C4 (amended): under LBA-assist the logical sectors-per-track is fixed at
63 and, for totals not exceeding 63*255*1024, the logical heads come from
the ladder 16/32/64/128/255 driven by (totalSectors/63)/1024 with logical
cylinders (totalSectors/63)/heads clamped to 1024; totals exceeding
63*255*1024 are special-cased to heads = 255 and cylinders = 1024, and the
worked total 16,514,064 falls in that special case (not in the ladder,
which would anyway pick 255, never 64). -/
theorem lba_assist_translation_correct :
    (∀ pc ph ps sectors,
      (setup_translation_lchs ATA_TRANSLATION_LBA pc ph ps sectors).2.2 = 63
      ∧ (setup_translation_lchs ATA_TRANSLATION_LBA pc ph ps sectors).1 ≤ 1024)
    ∧ (∀ pc ph ps sectors, sectors ≤ 63 * 255 * 1024 →
        (setup_translation_lchs ATA_TRANSLATION_LBA pc ph ps sectors).2.1
          = ladder_spec (sectors / 63 / 1024)
        ∧ (setup_translation_lchs ATA_TRANSLATION_LBA pc ph ps sectors).1
          = min (sectors / 63 / ladder_spec (sectors / 63 / 1024)) 1024)
    ∧ (∀ pc ph ps sectors, 63 * 255 * 1024 < sectors →
        setup_translation_lchs ATA_TRANSLATION_LBA pc ph ps sectors = (1024, 255, 63))
    ∧ (∀ pc ph ps, setup_translation_lchs ATA_TRANSLATION_LBA pc ph ps 16514064
        = (1024, 255, 63)) := by
  refine ⟨?_, ?_, ?_, fun pc ph ps => rfl⟩
  · intro pc ph ps sectors
    rw [setup_lba_unfold]
    exact ⟨(lba_lchs_spec sectors).1, by dsimp only; split <;> omega⟩
  · intro pc ph ps sectors hs
    rw [setup_lba_unfold]
    obtain ⟨hh, hc⟩ := (lba_lchs_spec sectors).2.1 hs
    refine ⟨hh, ?_⟩
    dsimp only
    rw [hc]
    split <;> omega
  · intro pc ph ps sectors hs
    rw [setup_lba_unfold, (lba_lchs_spec sectors).2.2 hs]
    norm_num

/-- C4 witness: concrete totals discharging the hypotheses of
lba_assist_translation_correct, one at the ladder boundary and one just
past the special-case threshold. -/
theorem lba_assist_translation_correct_witness :
    (setup_translation_lchs ATA_TRANSLATION_LBA 0 0 0 16450560).2.1
      = ladder_spec (16450560 / 63 / 1024)
    ∧ setup_translation_lchs ATA_TRANSLATION_LBA 0 0 0 16450561 = (1024, 255, 63) :=
  ⟨(lba_assist_translation_correct.2.1 0 0 0 16450560 (by norm_num)).1,
   lba_assist_translation_correct.2.2.1 0 0 0 16450561 (by norm_num)⟩

/-- C5 counterexample: in 32-bit PIO mode the dword-count divisions of
insx_discard and the buffer move truncate, so the 100/50 skip values
discard 148 bytes (100 + 48) and move 1896 useful bytes, not the claimed
150 and 1898. -/
theorem ata_transfer_skip_cex :
    (ata_transfer_m 0 false 1 2048 100 50 pstat_zero w_pio32).map
        (fun p => (p.2.disc_first + p.2.disc_last, p.2.to_buf)) = some (148, 1896)
    ∧ decide ((ata_transfer_m 0 false 1 2048 100 50 pstat_zero w_pio32).map
        (fun p => (p.2.disc_first + p.2.disc_last, p.2.to_buf)) = some (150, 1898))
      = false :=
  ⟨rfl, rfl⟩

/-- C5 (amended): with count = 1, blocksize = 2048, skipfirst = 100,
skiplast = 50 and a clean final status, a 16-bit PIO device discards
exactly 100 bytes before and 50 bytes after the useful payload and moves
exactly 2048-100-50 = 1898 bytes to the caller buffer; a 32-bit PIO device,
whose loop counts truncate the byte counts to whole dwords, discards
100 + 48 = 148 bytes and moves 1896. -/
theorem ata_transfer_skip_trim_correct :
    (∀ d pstat st w, (w.devices d).mode = ATA_MODE_PIO16 → pstat 0 = some st →
      st &&& (ATA_CB_STAT_BSY ||| ATA_CB_STAT_DRQ ||| ATA_CB_STAT_ERR) = 0 →
      ata_transfer_m d false 1 2048 100 50 pstat w
        = some (0, { w with sector_count := 1
                            disc_first := w.disc_first + 100
                            disc_last := w.disc_last + 50
                            to_buf := w.to_buf + 1898 }))
    ∧ (∀ d pstat st w, (w.devices d).mode = ATA_MODE_PIO32 → pstat 0 = some st →
      st &&& (ATA_CB_STAT_BSY ||| ATA_CB_STAT_DRQ ||| ATA_CB_STAT_ERR) = 0 →
      ata_transfer_m d false 1 2048 100 50 pstat w
        = some (0, { w with sector_count := 1
                            disc_first := w.disc_first + 100
                            disc_last := w.disc_last + 48
                            to_buf := w.to_buf + 1896 })) := by
  constructor <;>
  · intro d pstat st w hm hp hst
    simp only [ATA_CB_STAT_BSY, ATA_CB_STAT_DRQ, ATA_CB_STAT_ERR] at hst
    simp only [ata_transfer_m, hm]
    simp only [ata_transfer_loop, hp, insx_discard, pio_chunk, ATA_MODE_PIO16,
      ATA_MODE_PIO32, ATA_CB_STAT_BSY, ATA_CB_STAT_DF, ATA_CB_STAT_DRQ,
      ATA_CB_STAT_ERR]
    norm_num [hst]

/-- C5 witness: the 16-bit-mode conclusion at a concrete oracle and world. -/
theorem ata_transfer_skip_trim_correct_witness :
    ata_transfer_m 0 false 1 2048 100 50 pstat_zero w_pio16
      = some (0, { w_pio16 with sector_count := 1
                                disc_first := 100
                                disc_last := 50
                                to_buf := 1898 }) :=
  ata_transfer_skip_trim_correct.1 0 pstat_zero 0 w_pio16 rfl rfl (by decide)

/-- Identify buffer whose whole model area is 0x20 space padding. -/
def buf_spaces : Nat → Nat := fun _ => 0x2020

/-- Identify buffer carrying the word-swapped, space padded string
ATA DISK in the model area (words 27-46). -/
def buf_atadisk : Nat → Nat := fun i =>
  if i = 27 then 0x4154
  else if i = 28 then 0x4120
  else if i = 29 then 0x4449
  else if i = 30 then 0x534b
  else 0x2020

/-- C6 counterexample: on an all-0x20 model area the trim loop of
extract_identify stops at index 1 (its guard keeps index 0 untouched), so
the resulting model string starts with a 0x20 space and is not all-null. -/
theorem extract_model_spaces_cex :
    decide (extract_model 41 buf_spaces = List.replicate 41 0) = false := by
  rfl

/-- C6 (amended): extract_identify word-swaps the ASCII identify words,
trims trailing 0x20 spaces down to (but never including) index 0, and
null-terminates: an all-0x20 model area yields a single space followed by
nulls (not an all-null string), and a word-swapped space-padded ATA DISK
yields exactly ATA DISK with no trailing space. -/
theorem extract_model_trim_correct :
    extract_model 41 buf_spaces = 0x20 :: List.replicate 40 0
    ∧ extract_model 41 buf_atadisk
      = [0x41, 0x54, 0x41, 0x20, 0x44, 0x49, 0x53, 0x4b] ++ List.replicate 33 0 := by
  constructor <;> decide

/-- C7: await_ide returns the current status byte as soon as
(status AND mask) = flags holds, and reports the timeout error -1 only at a
poll whose rdtscll reading has reached the deadline, with the status
condition checked (and failed) at every poll up to and including that one
- in particular at least once. -/
theorem await_ide_correct :
    (∀ mask flags status tsc deadline fuel k,
      status k &&& mask = flags →
      await_ide mask flags status tsc deadline (fuel + 1) k
        = some (Int.ofNat (status k)))
    ∧ (∀ mask flags status tsc deadline fuel k,
      await_ide mask flags status tsc deadline fuel k = some (-1) →
      ∃ j, k ≤ j ∧ deadline ≤ tsc j
        ∧ ∀ i, k ≤ i → i ≤ j → status i &&& mask ≠ flags) := by
  constructor
  · intro mask flags status tsc deadline fuel k h
    rw [await_ide, if_pos h]
  · intro mask flags status tsc deadline fuel
    induction fuel with
    | zero =>
      intro k h
      simp [await_ide] at h
    | succ n ih =>
      intro k h
      rw [await_ide] at h
      by_cases hcond : status k &&& mask = flags
      · rw [if_pos hcond] at h
        simp only [Option.some.injEq] at h
        have h0 : (0 : Int) ≤ Int.ofNat (status k) := Int.ofNat_nonneg _
        rw [h] at h0
        norm_num at h0
      · rw [if_neg hcond] at h
        by_cases htime : deadline ≤ tsc k
        · refine ⟨k, le_refl k, htime, ?_⟩
          intro i hki hik
          have : i = k := le_antisymm hik hki
          rw [this]
          exact hcond
        · rw [if_neg htime] at h
          obtain ⟨j, hkj, hdl, hall⟩ := ih (k + 1) h
          refine ⟨j, by omega, hdl, ?_⟩
          intro i hki hij
          rcases eq_or_lt_of_le hki with heq | hlt
          · rw [← heq]
            exact hcond
          · exact hall i (by omega) hij

/-- C7 witness: a status that immediately matches is returned at once, and
a status that never matches forces the timeout with the deadline reached. -/
theorem await_ide_correct_witness :
    await_ide 0x40 0x40 (fun _ => 0x50) (fun j => j) 2 5 0
      = some (Int.ofNat 0x50)
    ∧ ∃ j, 0 ≤ j ∧ 2 ≤ (fun j : Nat => j) j
      ∧ ∀ i, 0 ≤ i → i ≤ j → (fun _ : Nat => 0x80) i &&& 0x80 ≠ 0 :=
  ⟨await_ide_correct.1 0x40 0x40 (fun _ => 0x50) (fun j => j) 2 4 0 (by decide),
   await_ide_correct.2 0x80 0 (fun _ => 0x80) (fun j => j) 2 5 0 (by decide)⟩

/-- Valid values of the type field of a device table entry. -/
def type_ok (t : Nat) : Prop :=
  t = ATA_TYPE_NONE ∨ t = ATA_TYPE_ATA ∨ t = ATA_TYPE_ATAPI

/-- The block loop of ata_transfer never writes the device table. -/
theorem ata_transfer_loop_devices (mode : Nat) (iswrite : Bool)
    (count blocksize sf sl : Nat) (pstat : Nat → Option Nat) :
    ∀ fuel current w r w2,
      ata_transfer_loop mode iswrite count blocksize sf sl pstat fuel current w
        = some (r, w2) → w2.devices = w.devices := by
  intro fuel
  induction fuel with
  | zero =>
    intro current w r w2 h
    rw [ata_transfer_loop] at h
    simp at h
  | succ n ih =>
    intro current w r w2 h
    rw [ata_transfer_loop] at h
    rcases hp : pstat current with _ | st <;> rw [hp] at h <;> dsimp only at h
    · simp only [Option.some.injEq, Prod.mk.injEq] at h
      obtain ⟨-, rfl⟩ := h
      rfl
    · split at h
      · repeat' split at h
        all_goals simp only [Option.some.injEq, Prod.mk.injEq] at h
        all_goals obtain ⟨-, rfl⟩ := h
        all_goals rfl
      · split at h
        · rw [ih _ _ _ _ h]
        · simp only [Option.some.injEq, Prod.mk.injEq] at h
          obtain ⟨-, rfl⟩ := h
          rfl

/-- ata_transfer only writes the EBDA counter, not the device table. -/
theorem ata_transfer_m_devices (d : Nat) (iw : Bool) (c bs sf sl : Nat)
    (pstat : Nat → Option Nat) (w : ata_state) (r : Int) (w2 : ata_state) :
    ata_transfer_m d iw c bs sf sl pstat w = some (r, w2) →
    w2.devices = w.devices := by
  intro h
  unfold ata_transfer_m at h
  have h2 := ata_transfer_loop_devices (w.devices d).mode iw c bs sf sl pstat c 0
    { w with sector_count := 0 } r w2 h
  exact h2

/-- The emulation wrapper also leaves the device table unchanged. -/
theorem ata_transfer_cdemu_devices (op : disk_op) (bfr aft : Nat)
    (pstat : Nat → Option Nat) (w : ata_state) (r : Int) (w2 : ata_state) :
    ata_transfer_cdemu op bfr aft pstat w = some (r, w2) →
    w2.devices = w.devices := by
  intro h
  unfold ata_transfer_cdemu at h
  rcases heq : ata_transfer_m op.driveid false op.count CDROM_SECTOR_SIZE
      (bfr * 512) (aft * 512) pstat w with _ | ⟨ret, w1⟩
  · rw [heq] at h
    simp at h
  · rw [heq] at h
    simp only [Option.map_some'] at h
    have hd := ata_transfer_m_devices _ _ _ _ _ _ _ _ _ _ heq
    split at h <;>
    · simp only [Option.some.injEq, Prod.mk.injEq] at h
      obtain ⟨-, rfl⟩ := h
      exact hd

/-- init_drive_atapi keeps every type field inside the valid set. -/
theorem init_drive_atapi_m_type_inv (d : Nat) (buf : Nat → Nat) (w : ata_state)
    (hw : ∀ j, type_ok ((w.devices j).type)) :
    ∀ j, type_ok (((init_drive_atapi_m d buf w).devices j).type) := by
  intro j
  unfold init_drive_atapi_m set_device
  dsimp only
  split
  · right; right; rfl
  · exact hw j

/-- init_drive_ata keeps every type field inside the valid set. -/
theorem init_drive_ata_m_type_inv (d : Nat) (buf : Nat → Nat) (w : ata_state)
    (hw : ∀ j, type_ok ((w.devices j).type)) :
    ∀ j, type_ok (((init_drive_ata_m d buf w).devices j).type) := by
  intro j
  unfold init_drive_ata_m set_device
  dsimp only
  split
  · right; left; rfl
  · exact hw j

/-- The detection scan only ever stores ATA or ATAPI into a type field. -/
theorem ata_detect_loop_type_inv (o : detect_oracle) (iob : Nat → Nat) :
    ∀ l w probes, (∀ j, type_ok ((w.devices j).type)) →
      ∀ j, type_ok (((ata_detect_loop o iob l w probes).1.devices j).type) := by
  intro l
  induction l with
  | nil =>
    intro w probes hw j
    exact hw j
  | cons d rest ih =>
    intro w probes hw j
    rw [ata_detect_loop]
    split
    · exact hw j
    · dsimp only
      split
      · exact ih _ _ hw j
      · split
        · exact ih _ _ (init_drive_atapi_m_type_inv d _ w hw) j
        · split
          · exact ih _ _ hw j
          · split
            · exact ih _ _ hw j
            · split
              · exact ih _ _ (init_drive_ata_m_type_inv d _ w hw) j
              · exact ih _ _ hw j

/-- C8: the device-table fields (in particular type, mode and blksize) are
written only during detection and identification; no transfer operation
(ata_cmd_data, cdrom_read, cdrom_read_512, ata_cmd_packet, ata_reset)
mutates the device table, whether it succeeds or fails, and after the
detection pass every type field is one of none, ATA, ATAPI. -/
theorem device_table_frame_correct :
    (∀ op o w r w2, ata_cmd_data_m op o w = some (r, w2) → w2.devices = w.devices)
    ∧ (∀ op o w r w2, cdrom_read_m op o w = some (r, w2) → w2.devices = w.devices)
    ∧ (∀ op o w r op2 w2, cdrom_read_512_m op o w = some (r, op2, w2) →
        w2.devices = w.devices)
    ∧ (∀ d len o w r w2, ata_cmd_packet_m d len o w = some (r, w2) →
        w2.devices = w.devices)
    ∧ (∀ d o w, (ata_reset_m d o w).devices = w.devices)
    ∧ (∀ o iob maxdev j, type_ok (((ata_detect_m o iob maxdev).1.devices j).type)) := by
  refine ⟨?_, ?_, ?_, ?_, fun d o w => rfl, ?_⟩
  · intro op o w r w2 h
    unfold ata_cmd_data_m at h
    dsimp only at h
    split at h
    · simp only [Option.some.injEq, Prod.mk.injEq] at h
      obtain ⟨-, rfl⟩ := h
      rfl
    · exact ata_transfer_m_devices _ _ _ _ _ _ _ _ _ _ h
  · intro op o w r w2 h
    unfold cdrom_read_m at h
    dsimp only at h
    split at h
    · simp only [Option.some.injEq, Prod.mk.injEq] at h
      obtain ⟨-, rfl⟩ := h
      rfl
    · exact ata_transfer_m_devices _ _ _ _ _ _ _ _ _ _ h
  · intro op o w r op2 w2 h
    unfold cdrom_read_512_m at h
    dsimp only at h
    split at h
    · simp only [Option.some.injEq, Prod.mk.injEq] at h
      obtain ⟨-, -, rfl⟩ := h
      rfl
    · rcases heq : ata_transfer_cdemu (cdrom_read_512_plan op).op
          (cdrom_read_512_plan op).before (cdrom_read_512_plan op).after o.pstat w
        with _ | ⟨ret, w1⟩
      · rw [heq] at h
        simp at h
      · rw [heq] at h
        simp only [Option.map_some'] at h
        simp only [Option.some.injEq, Prod.mk.injEq] at h
        obtain ⟨-, -, rfl⟩ := h
        exact ata_transfer_cdemu_devices _ _ _ _ _ _ _ heq
  · intro d len o w r w2 h
    unfold ata_cmd_packet_m at h
    dsimp only at h
    split at h
    · simp only [Option.some.injEq, Prod.mk.injEq] at h
      obtain ⟨-, rfl⟩ := h
      rfl
    · exact ata_transfer_m_devices _ _ _ _ _ _ _ _ _ _ h
  · intro o iob maxdev j
    exact ata_detect_loop_type_inv o iob _ _ _ (fun j => Or.inl rfl) j

/-- C8 witness: a concrete failing disk command returns the world with the
device table untouched. -/
theorem device_table_frame_correct_witness :
    ∃ r w2, ata_cmd_data_m ⟨0, 0x20, 0, 1, 0⟩ o_fail w_pio16 = some (r, w2)
      ∧ w2.devices = w_pio16.devices := by
  refine ⟨-1, _, rfl, ?_⟩
  exact device_table_frame_correct.1 ⟨0, 0x20, 0, 1, 0⟩ o_fail w_pio16 (-1) _ rfl

/-- The list of probed driveids produced by the scan loop: the accumulated
prefix plus every further driveid up to the first one whose channel has a
zero I/O base.  Identification outcomes play no role in it. -/
theorem ata_detect_loop_probes (o : detect_oracle) (iob : Nat → Nat) :
    ∀ l w probes, (ata_detect_loop o iob l w probes).2
      = probes ++ l.takeWhile (fun d => decide (iob (d / 2) ≠ 0)) := by
  intro l
  induction l with
  | nil =>
    intro w probes
    simp [ata_detect_loop]
  | cons d rest ih =>
    intro w probes
    rw [ata_detect_loop]
    by_cases hz : iob (d / 2) = 0
    · rw [if_pos hz]
      simp [List.takeWhile_cons, hz]
    · rw [if_neg hz]
      dsimp only
      split
      · rw [ih]
        simp [List.takeWhile_cons, hz]
      · split
        · rw [ih]
          simp [List.takeWhile_cons, hz]
        · split
          · rw [ih]
            simp [List.takeWhile_cons, hz]
          · split
            · rw [ih]
              simp [List.takeWhile_cons, hz]
            · split
              · rw [ih]
                simp [List.takeWhile_cons, hz]
              · rw [ih]
                simp [List.takeWhile_cons, hz]

/-- Membership in the space of elements kept by takeWhile over an
arithmetic range: exactly the range elements all of whose predecessors
inside the range satisfy the predicate. -/
theorem mem_takeWhile_range' (p : Nat → Bool) :
    ∀ n s d, d ∈ (List.range' s n).takeWhile p
      ↔ (s ≤ d ∧ d < s + n ∧ ∀ e, s ≤ e → e ≤ d → p e = true) := by
  intro n
  induction n with
  | zero =>
    intro s d
    simp
    omega
  | succ m ih =>
    intro s d
    rw [List.range'_succ]
    by_cases hp : p s
    · rw [List.takeWhile_cons, if_pos hp, List.mem_cons]
      rw [ih (s + 1) d]
      constructor
      · rintro (rfl | ⟨h1, h2, h3⟩)
        · refine ⟨le_refl d, by omega, ?_⟩
          intro e he1 he2
          have : e = d := le_antisymm he2 he1
          rw [this]
          exact hp
        · refine ⟨by omega, by omega, ?_⟩
          intro e he1 he2
          rcases eq_or_lt_of_le he1 with rfl | hlt
          · exact hp
          · exact h3 e (by omega) he2
      · rintro ⟨h1, h2, h3⟩
        rcases eq_or_lt_of_le h1 with rfl | hlt
        · exact Or.inl rfl
        · exact Or.inr ⟨by omega, by omega, fun e he1 he2 => h3 e (by omega) he2⟩
    · rw [List.takeWhile_cons, if_neg hp]
      simp only [List.not_mem_nil, false_iff]
      rintro ⟨h1, h2, h3⟩
      exact hp (h3 s (le_refl s) h1)

/-- C9: ata_detect scans driveids in increasing order; a driveid is probed
(reaches the 0x55/0xaa register-pattern write) exactly when it is below the
device cap and no driveid up to it lives on a channel with iobase1 = 0: a
zero-configured channel slot breaks the whole scan, so no higher driveid is
ever probed even on channels with valid bases, while a failed pattern
readback merely skips that single driveid (the characterization holds for
every oracle, so readback outcomes cannot affect which driveids are
probed). -/
theorem ata_detect_probe_correct (o : detect_oracle) (iob : Nat → Nat)
    (maxdev d : Nat) :
    d ∈ (ata_detect_m o iob maxdev).2
      ↔ (d < maxdev ∧ ∀ e, e ≤ d → iob (e / 2) ≠ 0) := by
  unfold ata_detect_m
  rw [ata_detect_loop_probes, List.nil_append, List.range_eq_range',
    mem_takeWhile_range']
  constructor
  · rintro ⟨h1, h2, h3⟩
    refine ⟨by omega, ?_⟩
    intro e he
    have := h3 e (Nat.zero_le e) he
    simpa using this
  · rintro ⟨h1, h2⟩
    refine ⟨Nat.zero_le d, by omega, ?_⟩
    intro e he1 he2
    simpa using h2 e he2

/-- Channel configuration with two valid channels and the rest zero. -/
def iob_two : Nat → Nat := fun c => if c < 2 then 0x1f0 else 0

/-- Oracle refusing every probe and identification. -/
def detect_oracle_none : detect_oracle :=
  { pattern_ok := fun _ => false, atapi_ok := fun _ => false
    atapi_buf := fun _ _ => 0, status_nonzero := fun _ => false
    rdy_ok := fun _ => false, ata_ok := fun _ => false, ata_buf := fun _ _ => 0 }

/-- C9 witness: with channels 0 and 1 configured and channel 2 zero,
driveid 3 is probed even though every pattern readback fails, and driveid 4
is not probed even though readback behaviour is identical. -/
theorem ata_detect_probe_correct_witness :
    3 ∈ (ata_detect_m detect_oracle_none iob_two 8).2
    ∧ 4 ∉ (ata_detect_m detect_oracle_none iob_two 8).2 :=
  ⟨(ata_detect_probe_correct detect_oracle_none iob_two 8 3).mpr
      ⟨by norm_num, by decide⟩,
   fun hmem => by
    have h := (ata_detect_probe_correct detect_oracle_none iob_two 8 4).mp hmem
    exact absurd (h.2 4 (le_refl 4)) (by decide)⟩

/-- Every return path of cdrom_read_512 carries the rewritten descriptor:
the mutation happens before any command is issued. -/
theorem cdrom_read_512_m_op (op : disk_op) (o : io_oracle) (w : ata_state)
    (r : Int) (op2 : disk_op) (w2 : ata_state) :
    cdrom_read_512_m op o w = some (r, op2, w2) →
    op2 = (cdrom_read_512_plan op).op := by
  intro h
  unfold cdrom_read_512_m at h
  dsimp only at h
  split at h
  · simp only [Option.some.injEq, Prod.mk.injEq] at h
    exact h.2.1.symm
  · rcases heq : ata_transfer_cdemu (cdrom_read_512_plan op).op
        (cdrom_read_512_plan op).before (cdrom_read_512_plan op).after o.pstat w
      with _ | ⟨ret, w1⟩
    · rw [heq] at h
      simp at h
    · rw [heq] at h
      simp only [Option.map_some'] at h
      simp only [Option.some.injEq, Prod.mk.injEq] at h
      exact h.2.1.symm

/-- Field values of the rewritten descriptor under the u32/u16 side
conditions guaranteed by the C types: the count is a positive u16 and the
logical window lies inside the u32 LBA space. -/
theorem cdrom_read_512_plan_fields (op : disk_op) (h1 : 0 < op.count)
    (h2 : op.count < 65536) (h3 : op.lba + op.count ≤ 2 ^ 32) :
    (cdrom_read_512_plan op).op.lba = op.lba / 4
    ∧ (cdrom_read_512_plan op).op.count
      = (op.lba + op.count - 1) / 4 - op.lba / 4 + 1
    ∧ (cdrom_read_512_plan op).op.driveid = op.driveid
    ∧ (cdrom_read_512_plan op).op.buf_fl = op.buf_fl
    ∧ (cdrom_read_512_plan op).op.command = op.command := by
  unfold cdrom_read_512_plan
  dsimp only
  simp only [Nat.reducePow] at h3 ⊢
  refine ⟨by omega, by omega, by trivial, by trivial, by trivial⟩

/-- C10: cdrom_read_512 mutates the caller-supplied descriptor in place:
after the call, whether it succeeds or fails, op.lba holds the physical
2048-byte-sector LBA (the original lba divided by 4) and op.count holds the
physical sector count; op.driveid, op.buf_fl (and op.command) are left
unchanged.  The side conditions state that the caller passes a positive
u16 count and a logical window inside the u32 LBA space, as the C types
enforce. -/
theorem cdrom_read_512_descriptor_correct (op : disk_op) (o : io_oracle)
    (w : ata_state) (r : Int) (op2 : disk_op) (w2 : ata_state)
    (h1 : 0 < op.count) (h2 : op.count < 65536)
    (h3 : op.lba + op.count ≤ 2 ^ 32) :
    cdrom_read_512_m op o w = some (r, op2, w2) →
    op2.lba = op.lba / 4
    ∧ op2.count = (op.lba + op.count - 1) / 4 - op.lba / 4 + 1
    ∧ op2.driveid = op.driveid ∧ op2.buf_fl = op.buf_fl
    ∧ op2.command = op.command := by
  intro h
  rw [cdrom_read_512_m_op op o w r op2 w2 h]
  exact cdrom_read_512_plan_fields op h1 h2 h3

/-- C10 witness: a failing packet command still returns the descriptor
rewritten to physical lba 1 and physical count 3. -/
theorem cdrom_read_512_descriptor_correct_witness :
    ∃ r op2 w2, cdrom_read_512_m ⟨7, 0x28, 5, 10, 99⟩ o_fail w_pio16
        = some (r, op2, w2)
      ∧ op2.lba = 1 ∧ op2.count = 3 ∧ op2.driveid = 7 ∧ op2.buf_fl = 99 := by
  refine ⟨-1, _, _, rfl, ?_, ?_, ?_, ?_⟩
  · exact (cdrom_read_512_descriptor_correct ⟨7, 0x28, 5, 10, 99⟩ o_fail w_pio16
      (-1) _ _ (by norm_num) (by norm_num) (by norm_num) rfl).1
  · exact (cdrom_read_512_descriptor_correct ⟨7, 0x28, 5, 10, 99⟩ o_fail w_pio16
      (-1) _ _ (by norm_num) (by norm_num) (by norm_num) rfl).2.1
  · exact (cdrom_read_512_descriptor_correct ⟨7, 0x28, 5, 10, 99⟩ o_fail w_pio16
      (-1) _ _ (by norm_num) (by norm_num) (by norm_num) rfl).2.2.1
  · exact (cdrom_read_512_descriptor_correct ⟨7, 0x28, 5, 10, 99⟩ o_fail w_pio16
      (-1) _ _ (by norm_num) (by norm_num) (by norm_num) rfl).2.2.2.1

end SeaBiosAta
